import Mathlib

/-!
# Verification of the entity-simulation core of `4160_P2`

Shallow embedding of the data model and operations of the tower-defense
engine (`src/engine/entity.py`, `src/game/tower.py`, `src/game/grid.py`,
`src/game/projectile.py`) together with theorems settling the spec claims.

Conventions:
* Python `int` fields are embedded as `Int`, coordinates (Python floats
  holding small exact values) as `Rat`.
* Mutating methods become pure state-transition functions.
* Abstract hook methods (`_on_damage`, `_on_heal`, `_on_death`,
  `_on_dispose`) have no observable base behavior; the embedding counts
  their invocations so that "the hook ran" is observable.
* A Python statement that raises is embedded as an `Option` result with
  `none` for the raised exception.
-/

namespace TowerDefense

/-! ## LivingEntity (`src/engine/entity.py`, classes `Entity` and `LivingEntity`)

State of one `LivingEntity` constructed with the constructor defaults
`health_bar=False` and `bound_to_screen=False` (so no health-bar companion
exists and the screen-clamping movement branch, which reads the global
window resolution, is never taken).  `maxHealth` embeds the per-subclass
constant property `max_health`; `_max_health` is stored into the instance
by `__init__` exactly as in the source.  The `onXCount` fields count hook
invocations. -/
structure LivingState where
  health : Int
  maxHealth : Int
  invincible : Bool
  invincibleFrames : Int
  locX : Rat
  locY : Rat
  velX : Rat
  velY : Rat
  loaded : Bool
  removed : Bool
  shouldRemoveFlag : Bool
  onDamageCount : Nat
  onHealCount : Nat
  onDeathCount : Nat
  onDisposeCount : Nat
  deriving Repr, DecidableEq

namespace LivingState

/-- Embeds `LivingEntity.__init__` (entity.py:325-339): `self._health = max(health,
self.max_health)`; invincibility off, zero invincibility frames.  The
`maxHealth` parameter embeds the subclass's constant `max_health` property;
`health` is the constructor argument (default 10 in the source). -/
def init (maxHealth : Int) (health : Int) : LivingState :=
  { health := max health maxHealth
    maxHealth := maxHealth
    invincible := false
    invincibleFrames := 0
    locX := 0, locY := 0, velX := 0, velY := 0
    loaded := false
    removed := false
    shouldRemoveFlag := false
    onDamageCount := 0
    onHealCount := 0
    onDeathCount := 0
    onDisposeCount := 0 }

/-- Embeds `Entity.dispose` (entity.py:212-220): sets `_should_remove = True` then
calls `_on_dispose()` (unconditionally, on every call).  For a
`LivingEntity` without a health bar, `LivingEntity.dispose` reduces to
this. -/
def dispose (s : LivingState) : LivingState :=
  { s with shouldRemoveFlag := true, onDisposeCount := s.onDisposeCount + 1 }

/-- Embeds `LivingEntity.damage` (entity.py:376-380): no-op when invincible or
invincibility frames remain; otherwise `self._health -= amount` (no
clamping) and the `_on_damage` hook runs. -/
def damage (amount : Int) (s : LivingState) : LivingState :=
  if s.invincible || s.invincibleFrames > 0 then s
  else { s with health := s.health - amount, onDamageCount := s.onDamageCount + 1 }

/-- Embeds `LivingEntity.heal` (entity.py:382-384): `self._health =
min(self._max_health, self._health + amount)` then the `_on_heal` hook. -/
def heal (amount : Int) (s : LivingState) : LivingState :=
  { s with health := min s.maxHealth (s.health + amount), onHealCount := s.onHealCount + 1 }

/-- Embeds the `health` property setter (entity.py:402-406): `if value <= 0:
self._health = 0; self._on_death()` — and nothing at all otherwise. -/
def healthSet (value : Int) (s : LivingState) : LivingState :=
  if value ≤ 0 then { s with health := 0, onDeathCount := s.onDeathCount + 1 }
  else s

/-- Embeds `LivingEntity.tick` (entity.py:341-360) with the constructor defaults
`health_bar=False`, `bound_to_screen=False`: if `health <= 0`, run
`_on_death` then `dispose()` and return; otherwise decrement positive
invincibility frames and translate the location by the velocity. -/
def tick (s : LivingState) : LivingState :=
  if s.health ≤ 0 then
    dispose { s with onDeathCount := s.onDeathCount + 1 }
  else
    let s1 := if s.invincibleFrames > 0
      then { s with invincibleFrames := s.invincibleFrames - 1 } else s
    { s1 with locX := s1.locX + s1.velX, locY := s1.locY + s1.velY }

end LivingState

/-- A concrete example state used by counterexamples/witnesses: a living
entity with `max_health = 10` at full health, vulnerable, loaded. -/
def exampleLiving : LivingState :=
  { LivingState.init 10 10 with loaded := true }

/-! ## EntityHandler.tick (`src/engine/entity.py`, class `EntityHandler`)

The registry tick pass.  The handler state observable to these claims is
the backing Python `list` of entities; an entity is embedded by its
identity (`_id`), priority, lifecycle flags, and a counter of how many
times its `tick` method ran (so "processed in this pass" is observable). -/
structure HEntity where
  id : Nat
  priority : Int
  dirty : Bool
  loaded : Bool
  removed : Bool
  shouldRemoveFlag : Bool
  ticks : Nat
  deriving Repr, DecidableEq

namespace HEntity

/-- Embeds `Entity.should_remove` (entity.py:202-210): `False` when not
loaded, else `_should_remove and not _removed`. -/
def shouldRemoveB (e : HEntity) : Bool :=
  if !e.loaded then false else e.shouldRemoveFlag && !e.removed

/-- The entity's `tick` ran once (the abstract method's observable trace). -/
def run (e : HEntity) : HEntity :=
  { e with ticks := e.ticks + 1 }

end HEntity

namespace EntityHandler

/-- Embeds Python `list.remove(entity)`: removes the first element equal to
`entity`, where `Entity.__eq__` (entity.py:40-41) compares `_id`. -/
def pyRemove (l : List HEntity) (e : HEntity) : List HEntity :=
  l.eraseP (fun x => x.id == e.id)

/-- Embeds a stable ascending Python `list.sort()` keyed by `Entity.__lt__`
(priority comparison, entity.py:37-38): insertion of one element into an
already-sorted list, keeping earlier equal-priority elements first (Python
sort is stable). -/
def insertByPriority (e : HEntity) : List HEntity → List HEntity
  | [] => [e]
  | x :: xs =>
    if x.priority ≤ e.priority then x :: insertByPriority e xs
    else e :: x :: xs

/-- Stable insertion sort by priority, the embedding of `self._entities.sort()`
(entity.py:463). -/
def sortEntities (l : List HEntity) : List HEntity :=
  l.foldl (fun acc e => insertByPriority e acc) []

/-- Embeds the `for entity in self._entities:` loop of `EntityHandler.tick`
(entity.py:465-473) with offscreen culling disabled (`_despawn_offscreen`
is `False`, its constructor default).  Python's list iterator holds an
index `k` into the live, mutating list: `next()` yields `l[k]` and
advances to `k+1`; the body then either removes the yielded entity from
the list (`self._entities.remove(entity)` plus `continue`) or ticks it.
The removal shifts every later element one slot left while the iterator
index stays advanced.  `fuel` makes the recursion structural; each step
decreases `l.length - k`, so `fuel = l.length` never runs out. -/
def tickLoop (fuel : Nat) (l : List HEntity) (k : Nat) : List HEntity :=
  match fuel with
  | 0 => l
  | fuel + 1 =>
    if h : k < l.length then
      let e := l.get ⟨k, h⟩
      if e.shouldRemoveB then tickLoop fuel (pyRemove l e) (k + 1)
      else tickLoop fuel (l.set k e.run) (k + 1)
    else l

/-- Embeds `EntityHandler.tick` (entity.py:452-473): re-sort when any entity
is dirty (`_check_dirty`, entity.py:582-591), then run the iteration loop
from index 0. -/
def tick (l : List HEntity) : List HEntity :=
  let l := if l.any (fun e => e.dirty) then sortEntities l else l
  tickLoop l.length l 0

end EntityHandler

/-! ## Spatial queries (`Entity.nearest_entity_type`, entity.py:289-299)

An entity in the registry, as seen by the nearest-of-type query: its
identity, whether it is an instance of the queried type `t`, and its
location.  Distances in the source are `Location.dist` = `sqrt(dist_sqr)`
(location.py:206-214, 258-267); all the query does is compare distances,
and `sqrt` is strictly monotone on nonnegative reals, so the embedding
compares the (exact, rational) squared distances instead.  The bridging
lemma `distSq_le_iff_dist_le` below proves the two comparisons agree. -/
structure QEnt where
  id : Nat
  isT : Bool
  x : Rat
  y : Rat
  deriving Repr, DecidableEq

/-- Embeds `Location.dist_sqr` (location.py:258-267): `(x1-x2)^2 + (y1-y2)^2`. -/
def distSq (ax ay bx bY : Rat) : Rat :=
  (ax - bx) ^ 2 + (ay - bY) ^ 2

/-- Embeds `Entity.nearest_entity_type` (entity.py:289-299): scan the
registry list in order; skip entities not of type `t`; adopt the first
candidate; afterwards replace the running nearest whenever the new
candidate's distance is `<=` the running nearest's distance.  `acc` is the
running `nearest` local (initially `None`). -/
def nearestEntityType (sx sy : Rat) : List QEnt → Option QEnt → Option QEnt
  | [], acc => acc
  | e :: rest, acc =>
    if !e.isT then nearestEntityType sx sy rest acc
    else
      match acc with
      | none => nearestEntityType sx sy rest (some e)
      | some n =>
        nearestEntityType sx sy rest
          (if distSq e.x e.y sx sy ≤ distSq n.x n.y sx sy then some e else some n)

/-- The last-encountered minimizer of the distance to `(sx, sy)`: an element
of the list survives only when it is strictly closer than the best of the
rest, so on ties the later element wins.  This is the specification the
amended tie-breaking claim compares `nearestEntityType` against. -/
def lastArgmin (sx sy : Rat) : List QEnt → Option QEnt
  | [] => none
  | e :: rest =>
    match lastArgmin sx sy rest with
    | none => some e
    | some m => if distSq e.x e.y sx sy < distSq m.x m.y sx sy then some e else some m

/-- Proof-infrastructure helper: merge a running nearest `n` with the best
result `o` of the remaining scan, the later candidate `o` winning ties. -/
def tieStep (sx sy : Rat) (n : QEnt) : Option QEnt → Option QEnt
  | none => some n
  | some m => if distSq m.x m.y sx sy ≤ distSq n.x n.y sx sy then some m else some n

/-! ## Grid / Cell (`src/game/grid.py`)

A grid is embedded by its dimensions and the occupancy of each cell
(`Cell.empty` is `self._tower is None`, grid.py:36-38; the occupancy
matrix records `not empty`).  Cell coordinates are the integer `_x`/`_y`
indices into `Grid._cells[x][y]`. -/
structure GridM where
  w : Nat
  h : Nat
  occ : List (List Bool)
  deriving Repr, DecidableEq

namespace GridM

/-- Occupancy lookup `not self._cells[x][y].empty` for in-range coordinates
(out-of-range defaults to unoccupied; every use below is in range). -/
def occupied (g : GridM) (x y : Nat) : Bool :=
  (g.occ.getD x []).getD y false

/-- Embeds `Cell.cell_above` (grid.py:62-66): `None` when `y + 1 >= height`,
else the cell at `(x, y + 1)`. -/
def cellAbove (g : GridM) (x y : Nat) : Option (Nat × Nat) :=
  if y + 1 ≥ g.h then none else some (x, y + 1)

/-- Embeds `Cell.cell_left` (grid.py:68-72): `None` when `x - 1 < 0` (i.e.
`x = 0` for the nonnegative grid indices), else the cell at `(x - 1, y)`. -/
def cellLeft (g : GridM) (x y : Nat) : Option (Nat × Nat) :=
  if x = 0 then none else some (x - 1, y)

/-- Embeds `Cell.cell_right` (grid.py:74-78): `None` when `x + 1 >= width`,
else the cell at `(x + 1, y)`. -/
def cellRight (g : GridM) (x y : Nat) : Option (Nat × Nat) :=
  if x + 1 ≥ g.w then none else some (x + 1, y)

/-- Embeds `Cell.cell_below` (grid.py:80-84): `None` when `y - 1 < 0` (i.e.
`y = 0`), else the cell at `(x, y - 1)`. -/
def cellBelow (g : GridM) (x y : Nat) : Option (Nat × Nat) :=
  if y = 0 then none else some (x, y - 1)

/-- Embeds the `for c in [cell.cell_left, cell.cell_above, cell.cell_right,
cell.cell_below]:` loop of `Grid.can_place_tower` (grid.py:162-166).  Each
iteration evaluates `c.empty`; when `c` is `None` (a neighbor past a grid
edge) that attribute access raises `AttributeError`, embedded as `none`.
An existing empty neighbor is skipped (`continue`); an existing non-empty
neighbor returns `True`; a completed loop returns `False`. -/
def neighborScan (g : GridM) : List (Option (Nat × Nat)) → Option Bool
  | [] => some false
  | none :: _ => none
  | some (cx, cy) :: rest =>
    if !g.occupied cx cy then neighborScan g rest else some true

/-- Embeds `Grid.can_place_tower` (grid.py:149-166) on the `coords` path
with in-range coordinates: `False` when the cell is not empty, otherwise
scan the four neighbors in source order (left, above, right, below).
`some b` is a normal return of `b`; `none` is the `AttributeError` raised
by `c.empty` on a missing edge neighbor. -/
def canPlaceTower (g : GridM) (x y : Nat) : Option Bool :=
  if g.occupied x y then some false
  else neighborScan g [g.cellLeft x y, g.cellAbove x y, g.cellRight x y, g.cellBelow x y]

end GridM

/-! ## Projectile trajectory (`Tower.aquire_projectile_velocities`,
tower.py:154-168, with a character-identical copy at
`HealerProjectile.aquire_projectile_velocities`, projectile.py:315-329) -/

/-- Embeds Python's built-in `round` on an exact value: round half to even
(banker's rounding), as applied to the float products in the trajectory
computation. -/
def pythonRound (q : Rat) : Int :=
  let f := ⌊q⌋
  let frac := q - (f : Rat)
  if frac < 1 / 2 then f
  else if 1 / 2 < frac then f + 1
  else if f % 2 = 0 then f else f + 1

/-- Embeds `Tower.aquire_projectile_velocities` (tower.py:154-168) and the
identical `HealerProjectile.aquire_projectile_velocities`
(projectile.py:315-329).  `x_distance`/`y_distance` are
`Location.dist_x`/`dist_y` (location.py:216-234), which are absolute
values; `total_distance = abs(y_distance) + abs(x_distance)`;
`distance_ratio = abs(x_distance / total_distance)` divides by
`total_distance` with no zero check, so when origin and target coincide
the Python code raises `ZeroDivisionError`, embedded as `none`.  The
trailing sign flips on `x_distance < 0` / `y_distance < 0` are retained
from the source (they can never fire, the distances being absolute
values). -/
def aquireProjectileVelocities (ox oy tx ty : Rat) (maxVelocity : Int) :
    Option (Int × Int) :=
  let xDistance := |ox - tx|
  let yDistance := |oy - ty|
  let totalDistance := |yDistance| + |xDistance|
  if totalDistance = 0 then none
  else
    let distanceRatio := |xDistance / totalDistance|
    let xVelocity := pythonRound (distanceRatio * (maxVelocity : Rat))
    let yVelocity := pythonRound ((1 - distanceRatio) * (maxVelocity : Rat))
    let xVelocity := if xDistance < 0 then -xVelocity else xVelocity
    let yVelocity := if yDistance < 0 then -yVelocity else yVelocity
    some (xVelocity, yVelocity)

/-! ## Tower ability attempts (`Tower.perform_ability` tower.py:137-152 and
`Tower.tick` tower.py:73-75)

The world visible to one tower's ability attempt: the tower's own
location and `on_cooldown` flag, a count of `Timer(...).start()` calls
(cooldown restarts) and of `_on_ability` executions, and the registry
contents the target acquisition can see — enemies (location and health),
players, and tower locations.  The subclass-specific `_on_ability` body
is a parameter `f` of the transition functions: the theorems hold for
every ability implementation. -/

/-- Embeds the `EntityTargetType` enum (tower.py:23-28). -/
inductive EntityTargetType where
  | ENEMY
  | PLAYER
  | TOWER
  | NONE
  deriving Repr, DecidableEq

structure EnemyM where
  x : Rat
  y : Rat
  health : Int
  deriving Repr, DecidableEq

structure PlayerM where
  health : Int
  deriving Repr, DecidableEq

structure AbilityWorld where
  towerX : Rat
  towerY : Rat
  onCooldown : Bool
  timerStarts : Nat
  abilityRuns : Nat
  enemies : List EnemyM
  players : List PlayerM
  towerLocs : List (Rat × Rat)
  deriving Repr, DecidableEq

/-- A target found by `perform_ability`, as an index into the corresponding
registry list of the world. -/
inductive TargetRef where
  | enemy (i : Nat)
  | tower (i : Nat)
  | player (i : Nat)
  deriving Repr, DecidableEq

/-- Embeds the radius test of `Entity.nearby_entities_type`
(entity.py:269-277): `e.loc.dist(self.loc) <= radius`.  Since
`dist = sqrt(dist_sqr)` and `sqrt` is monotone, for a nonnegative radius
this is `dist_sqr <= radius^2`; a negative radius admits nothing. -/
def withinRadius (cx cy x y r : Rat) : Bool :=
  0 ≤ r && distSq x y cx cy ≤ r ^ 2

/-- Embeds the `match self.entity_target():` target acquisition of
`Tower.perform_ability` (tower.py:138-145): `ENEMY` and `TOWER` collect
the registry entities of that type within `area_of_effect()` of the
tower; `PLAYER` is `engine.entity_handler.get_entities(Player)` (every
player, no radius); `NONE` leaves `targets` as the initial `[]`. -/
def acquireTargets (tt : EntityTargetType) (aoe : Rat) (w : AbilityWorld) :
    List TargetRef :=
  match tt with
  | .ENEMY =>
    (w.enemies.enum.filterMap fun p =>
      if withinRadius w.towerX w.towerY p.2.x p.2.y aoe
      then some (TargetRef.enemy p.1) else none)
  | .TOWER =>
    (w.towerLocs.enum.filterMap fun p =>
      if withinRadius w.towerX w.towerY p.2.1 p.2.2 aoe
      then some (TargetRef.tower p.1) else none)
  | .PLAYER => w.players.enum.map fun p => TargetRef.player p.1
  | .NONE => []

/-- Embeds `Tower.perform_ability` (tower.py:137-152): acquire targets by
target type; if some were found, or the target type is `NONE`, run
`_on_ability(*targets)` (the parameter `f`, with `abilityRuns` counting
the call), set `on_cooldown = True`, and start a fresh cooldown `Timer`;
otherwise set `on_cooldown = False` and change nothing else. -/
def performAbility (f : List TargetRef → AbilityWorld → AbilityWorld)
    (tt : EntityTargetType) (aoe : Rat) (w : AbilityWorld) : AbilityWorld :=
  let targets := acquireTargets tt aoe w
  if targets.length > 0 || tt = EntityTargetType.NONE then
    let w1 := f targets { w with abilityRuns := w.abilityRuns + 1 }
    { w1 with onCooldown := true, timerStarts := w1.timerStarts + 1 }
  else
    { w with onCooldown := false }

/-- Embeds `Tower.tick` (tower.py:73-75): `if not self.on_cooldown:
self.perform_ability()`. -/
def towerTick (f : List TargetRef → AbilityWorld → AbilityWorld)
    (tt : EntityTargetType) (aoe : Rat) (w : AbilityWorld) : AbilityWorld :=
  if !w.onCooldown then performAbility f tt aoe w else w

/-- A concrete polling-state world for witnesses: tower at the origin with
one enemy at distance 500, matching the spec's end-to-end scenario. -/
def examplePollingWorld : AbilityWorld :=
  { towerX := 0, towerY := 0
    onCooldown := false
    timerStarts := 0
    abilityRuns := 0
    enemies := [{ x := 500, y := 0, health := 100 }]
    players := []
    towerLocs := [(0, 0)] }

/-! ## Concrete instances used by counterexamples and witnesses -/

/-- A loaded entity flagged for removal (its `should_remove()` is true),
first in the registry list. -/
def exampleRemoving : HEntity :=
  { id := 0, priority := 0, dirty := true, loaded := true, removed := false
    shouldRemoveFlag := true, ticks := 0 }

/-- The loaded neighbor at position 1 of the registry list, not flagged
for removal and never yet ticked. -/
def exampleNeighbor : HEntity :=
  { id := 1, priority := 0, dirty := true, loaded := true, removed := false
    shouldRemoveFlag := false, ticks := 0 }

/-- A type-`t` registry entity at `(1, 0)`, first in iteration order. -/
def exampleCandidateFirst : QEnt := { id := 1, isT := true, x := 1, y := 0 }

/-- A type-`t` registry entity at `(-1, 0)`, second in iteration order, at
the same distance from the origin as `exampleCandidateFirst`. -/
def exampleCandidateSecond : QEnt := { id := 2, isT := true, x := -1, y := 0 }

/-- The spec's grid-placement scenario: an empty 3×3 grid with only cell
`(1, 1)` occupied. -/
def exampleGrid3x3 : GridM :=
  { w := 3, h := 3
    occ := [[false, false, false], [false, true, false], [false, false, false]] }

end TowerDefense

/-! # Theorems -/

namespace TowerDefense

/-! ## Helper lemmas -/

lemma distSq_nonneg (ax ay bx bY : Rat) : 0 ≤ distSq ax ay bx bY := by
  unfold distSq
  positivity

/-- Comparing the source's `Location.dist` values (square roots of the
squared distances) is the same as comparing the squared distances, which
justifies the embedding of the `<=` tests of `nearest_entity_type` and
`nearby_entities_type` by `distSq`. -/
lemma distSq_le_iff_dist_le (p q r s u v w z : Rat) :
    Real.sqrt ((distSq p q r s : Rat) : ℝ) ≤ Real.sqrt ((distSq u v w z : Rat) : ℝ) ↔
      distSq p q r s ≤ distSq u v w z := by
  rw [Real.sqrt_le_sqrt_iff (by exact_mod_cast distSq_nonneg u v w z)]
  exact_mod_cast Iff.rfl

lemma nearestEntityType_cons_isT (sx sy : Rat) (e : QEnt) (rest : List QEnt)
    (he : e.isT = true) (acc : Option QEnt) :
    nearestEntityType sx sy (e :: rest) acc =
      match acc with
      | none => nearestEntityType sx sy rest (some e)
      | some n =>
        nearestEntityType sx sy rest
          (if distSq e.x e.y sx sy ≤ distSq n.x n.y sx sy then some e else some n) := by
  simp [nearestEntityType, he]

lemma nearestEntityType_cons_not_isT (sx sy : Rat) (e : QEnt) (rest : List QEnt)
    (he : e.isT = false) (acc : Option QEnt) :
    nearestEntityType sx sy (e :: rest) acc = nearestEntityType sx sy rest acc := by
  simp [nearestEntityType, he]

/-- The scan of `nearest_entity_type` only looks at the entities of the
queried type: it equals the scan of the type-filtered registry list. -/
lemma nearestEntityType_filter (sx sy : Rat) (l : List QEnt) (acc : Option QEnt) :
    nearestEntityType sx sy l acc =
      nearestEntityType sx sy (l.filter fun e => e.isT) acc := by
  induction l generalizing acc with
  | nil => rfl
  | cons e rest ih =>
    by_cases he : e.isT = true
    · rw [List.filter_cons_of_pos he, nearestEntityType_cons_isT sx sy e rest he,
        nearestEntityType_cons_isT sx sy e _ he]
      cases acc with
      | none => exact ih _
      | some n => exact ih _
    · rw [List.filter_cons_of_neg (by simpa using he),
        nearestEntityType_cons_not_isT sx sy e rest (by simpa using he), ih]

lemma tieStep_none (sx sy : Rat) (n : QEnt) : tieStep sx sy n none = some n := rfl

lemma tieStep_some (sx sy : Rat) (n m : QEnt) :
    tieStep sx sy n (some m) =
      if distSq m.x m.y sx sy ≤ distSq n.x n.y sx sy then some m else some n := rfl

lemma lastArgmin_cons_none {sx sy : Rat} {rest : List QEnt} (e : QEnt)
    (h : lastArgmin sx sy rest = none) :
    lastArgmin sx sy (e :: rest) = some e := by
  rw [lastArgmin, h]

lemma lastArgmin_cons_some {sx sy : Rat} {rest : List QEnt} {m : QEnt} (e : QEnt)
    (h : lastArgmin sx sy rest = some m) :
    lastArgmin sx sy (e :: rest) =
      if distSq e.x e.y sx sy < distSq m.x m.y sx sy then some e else some m := by
  rw [lastArgmin, h]

/-- Running the scan of `nearest_entity_type` over a list of type-`t`
entities with a non-`None` running nearest `n`: the result is the last
minimizer of the list when it beats (`<=`) `n`, else `n`. -/
lemma nearestEntityType_some (sx sy : Rat) (l : List QEnt)
    (hl : ∀ e ∈ l, e.isT = true) (n : QEnt) :
    nearestEntityType sx sy l (some n) = tieStep sx sy n (lastArgmin sx sy l) := by
  induction l generalizing n with
  | nil => rfl
  | cons e rest ih =>
    have he : e.isT = true := hl e (List.mem_cons_self e rest)
    have hrest : ∀ x ∈ rest, x.isT = true := fun x hx => hl x (List.mem_cons_of_mem _ hx)
    rw [nearestEntityType_cons_isT sx sy e rest he]
    show nearestEntityType sx sy rest
        (if distSq e.x e.y sx sy ≤ distSq n.x n.y sx sy then some e else some n) = _
    rcases le_or_lt (distSq e.x e.y sx sy) (distSq n.x n.y sx sy) with hen | hen
    · rw [if_pos hen, ih hrest e]
      cases hm : lastArgmin sx sy rest with
      | none =>
        rw [lastArgmin_cons_none e hm, tieStep_none, tieStep_some, if_pos hen]
      | some m =>
        rw [lastArgmin_cons_some e hm, tieStep_some]
        rcases le_or_lt (distSq m.x m.y sx sy) (distSq e.x e.y sx sy) with hme | hme
        · rw [if_pos hme, if_neg (not_lt.mpr hme), tieStep_some,
            if_pos (le_trans hme hen)]
        · rw [if_neg (not_le.mpr hme), if_pos hme, tieStep_some, if_pos hen]
    · rw [if_neg (not_le.mpr hen), ih hrest n]
      cases hm : lastArgmin sx sy rest with
      | none =>
        rw [lastArgmin_cons_none e hm, tieStep_none, tieStep_some,
          if_neg (not_le.mpr hen)]
      | some m =>
        rw [lastArgmin_cons_some e hm, tieStep_some]
        rcases lt_or_le (distSq e.x e.y sx sy) (distSq m.x m.y sx sy) with hem | hem
        · rw [if_neg (not_le.mpr (lt_trans hen hem)), if_pos hem, tieStep_some,
            if_neg (not_le.mpr hen)]
        · rw [if_neg (not_lt.mpr hem), tieStep_some]

/-- Over a list of type-`t` entities, the scan started from `None` computes
exactly the last minimizer. -/
lemma nearestEntityType_none_eq_lastArgmin (sx sy : Rat) (l : List QEnt)
    (hl : ∀ e ∈ l, e.isT = true) :
    nearestEntityType sx sy l none = lastArgmin sx sy l := by
  cases l with
  | nil => rfl
  | cons e rest =>
    have he : e.isT = true := hl e (List.mem_cons_self e rest)
    have hrest : ∀ x ∈ rest, x.isT = true := fun x hx => hl x (List.mem_cons_of_mem _ hx)
    rw [nearestEntityType_cons_isT sx sy e rest he]
    show nearestEntityType sx sy rest (some e) = _
    rw [nearestEntityType_some sx sy rest hrest e]
    cases hm : lastArgmin sx sy rest with
    | none => rw [lastArgmin_cons_none e hm, tieStep_none]
    | some m =>
      rw [lastArgmin_cons_some e hm, tieStep_some]
      rcases le_or_lt (distSq m.x m.y sx sy) (distSq e.x e.y sx sy) with hme | hme
      · rw [if_pos hme, if_neg (not_lt.mpr hme)]
      · rw [if_neg (not_le.mpr hme), if_pos hme]

/-! ## Claim theorems -/

/-- Claim C1 (code_bug evidence): the shared projectile trajectory
computation raises a `ZeroDivisionError` (embedded as `none`) whenever the
origin equals the target — including the spec's own example
`origin = target = (5, 5)`, `maxSpeed = 5` — instead of returning the
zero velocity `(0, 0)` through an explicit zero-distance branch.  No such
branch exists in either copy of the function. -/
theorem aquire_projectile_velocities_zero_distance_raises :
    aquireProjectileVelocities 5 5 5 5 5 = none ∧
    ∀ (ox oy : Rat) (v : Int), aquireProjectileVelocities ox oy ox oy v = none := by
  constructor
  · norm_num [aquireProjectileVelocities]
  · intro ox oy v
    simp [aquireProjectileVelocities]

/-- Claim C2 (code_bug evidence): in the registry tick pass, removing the
entity at position 0 (its `should_remove()` is true) makes the iterator
skip the entity at position 1: after the pass the neighbor is still
registered but its `tick` never ran (`ticks = 0`), contradicting the
contract that removal during iteration never skips a neighboring
entity. -/
theorem entity_handler_tick_skips_successor :
    EntityHandler.tick [exampleRemoving, exampleNeighbor] = [exampleNeighbor] ∧
    exampleNeighbor.ticks = 0 := by
  decide

/-- Claim C3 counterexample: `damage` is not clamped at 0.  A vulnerable
entity with `maxHealth = 10` at full health 10 takes `damage(15)` and ends
at health `-5 < 0`, refuting "damage(amount) never drives health below
0". -/
theorem damage_drives_health_below_zero :
    (LivingState.damage 15 exampleLiving).health = -5 ∧
    (LivingState.damage 15 exampleLiving).health < 0 := by
  decide

/-- Claim C3 as amended: `heal(amount)` never drives health above
`maxHealth` (the source clamps with `min`), but `damage(amount)` on a
vulnerable entity subtracts with no lower clamp — the result is exactly
`health - amount`, which is negative whenever `amount > health`. -/
theorem heal_clamped_damage_unclamped (s : LivingState) (amount : Int) :
    (LivingState.heal amount s).health ≤ s.maxHealth ∧
    (s.invincible = false → s.invincibleFrames ≤ 0 →
      (LivingState.damage amount s).health = s.health - amount) := by
  constructor
  · simp [LivingState.heal]
  · intro h1 h2
    simp [LivingState.damage, h1, not_lt.mpr h2]

/-- Witness for the amended C3 theorem at `exampleLiving` and
`amount = 15`. -/
theorem heal_clamped_damage_unclamped_witness :
    (LivingState.heal 15 exampleLiving).health ≤ exampleLiving.maxHealth ∧
    (LivingState.damage 15 exampleLiving).health = exampleLiving.health - 15 := by
  obtain ⟨h1, h2⟩ := heal_clamped_damage_unclamped exampleLiving 15
  exact ⟨h1, h2 rfl (by decide)⟩

/-- Claim C4 (code_bug evidence): on the spec's 3×3 grid with only `(1, 1)`
occupied, `can_place_tower` crashes with an `AttributeError` (embedded as
`none`) at `(0, 1)` — where the spec expects `True` — and at `(0, 0)` —
where the spec expects `False` — because the neighbor loop evaluates
`c.empty` on the missing (`None`) left neighbor of an edge cell.  On the
occupied cell `(1, 1)` (whose emptiness test precedes the neighbor loop)
it returns `False` normally. -/
theorem can_place_tower_edge_neighbor_crash :
    GridM.canPlaceTower exampleGrid3x3 0 1 = none ∧
    GridM.canPlaceTower exampleGrid3x3 0 0 = none ∧
    GridM.canPlaceTower exampleGrid3x3 1 1 = some false := by
  decide

/-- Claim C6 counterexample: a `damage` call that brings health exactly to
0 does not trigger `onDeath` and does not flag the entity for removal —
within the call, `onDeathCount` stays 0 and `shouldRemoveFlag` stays
false, refuting "triggers the onDeath hook and then dispose() ... as a
consequence of that damage call". -/
theorem damage_at_zero_no_immediate_death :
    (LivingState.damage 10 exampleLiving).health = 0 ∧
    (LivingState.damage 10 exampleLiving).onDeathCount = 0 ∧
    (LivingState.damage 10 exampleLiving).shouldRemoveFlag = false := by
  decide

/-- Claim C6 as amended: for a vulnerable entity with no invincibility
frames, a `damage(amount)` call that brings health to 0 or below leaves
the death hooks untouched; the `onDeath` hook and `dispose()` (removal
flag, `_on_dispose` teardown) run on the entity's next `tick`, not during
the damage call. -/
theorem death_processed_on_next_tick (s : LivingState) (amount : Int)
    (hinv : s.invincible = false) (hfr : s.invincibleFrames = 0)
    (hdead : s.health - amount ≤ 0) :
    (LivingState.damage amount s).onDeathCount = s.onDeathCount ∧
    (LivingState.damage amount s).shouldRemoveFlag = s.shouldRemoveFlag ∧
    (LivingState.tick (LivingState.damage amount s)).onDeathCount = s.onDeathCount + 1 ∧
    (LivingState.tick (LivingState.damage amount s)).shouldRemoveFlag = true ∧
    (LivingState.tick (LivingState.damage amount s)).onDisposeCount = s.onDisposeCount + 1 := by
  have hd : LivingState.damage amount s =
      { s with health := s.health - amount, onDamageCount := s.onDamageCount + 1 } := by
    simp [LivingState.damage, hinv, hfr]
  rw [hd]
  refine ⟨rfl, rfl, ?_, ?_, ?_⟩ <;>
    simp [LivingState.tick, LivingState.dispose, hdead]

/-- Witness for the amended C6 theorem at `exampleLiving` and
`amount = 10`. -/
theorem death_processed_on_next_tick_witness :
    (LivingState.damage 10 exampleLiving).onDeathCount = exampleLiving.onDeathCount ∧
    (LivingState.damage 10 exampleLiving).shouldRemoveFlag = exampleLiving.shouldRemoveFlag ∧
    (LivingState.tick (LivingState.damage 10 exampleLiving)).onDeathCount =
      exampleLiving.onDeathCount + 1 ∧
    (LivingState.tick (LivingState.damage 10 exampleLiving)).shouldRemoveFlag = true ∧
    (LivingState.tick (LivingState.damage 10 exampleLiving)).onDisposeCount =
      exampleLiving.onDisposeCount + 1 :=
  death_processed_on_next_tick exampleLiving 10 rfl rfl (by decide)

/-- Claim C7 counterexample: a second `dispose()` call does have an
additional observable effect — the `_on_dispose` teardown hook runs again
(its invocation count reaches 2), so the disposed-twice state differs from
the disposed-once state. -/
theorem dispose_hook_reruns_counterexample :
    (exampleLiving.dispose.dispose).onDisposeCount = 2 ∧
    exampleLiving.dispose.dispose ≠ exampleLiving.dispose := by
  decide

/-- Claim C7 as amended: `dispose()` is idempotent on the removal flag only
— a second call leaves `_should_remove` unchanged (still set) and changes
no other field, but re-runs the one-time `_on_dispose` teardown hook. -/
theorem dispose_flag_idempotent_hook_reruns (s : LivingState) :
    (s.dispose.dispose).shouldRemoveFlag = s.dispose.shouldRemoveFlag ∧
    (s.dispose.dispose).onDisposeCount = s.dispose.onDisposeCount + 1 ∧
    (s.dispose.dispose).health = s.dispose.health ∧
    s.dispose.dispose = { s.dispose with onDisposeCount := s.dispose.onDisposeCount + 1 } := by
  refine ⟨rfl, rfl, rfl, rfl⟩

/-- Claim C8 counterexample: with the query entity at the origin and two
type-`t` candidates at equal distance 1 — `(1, 0)` first in registry
order, `(-1, 0)` second — `nearest_entity_type` returns the second
candidate, not the first-encountered one. -/
theorem nearest_tie_returns_last_counterexample :
    nearestEntityType 0 0 [exampleCandidateFirst, exampleCandidateSecond] none =
      some exampleCandidateSecond ∧
    distSq exampleCandidateFirst.x exampleCandidateFirst.y 0 0 =
      distSq exampleCandidateSecond.x exampleCandidateSecond.y 0 0 ∧
    exampleCandidateSecond ≠ exampleCandidateFirst := by
  refine ⟨?_, ?_, ?_⟩
  · norm_num [nearestEntityType, distSq, exampleCandidateFirst, exampleCandidateSecond]
  · norm_num [distSq, exampleCandidateFirst, exampleCandidateSecond]
  · decide

/-- Claim C8 as amended: the nearest-of-type query breaks distance ties by
returning the LAST-encountered entity in registry iteration order, not the
first — `nearest_entity_type` computes exactly `lastArgmin` of the type-`t`
entities of the registry list, the scan in which a candidate survives only
when strictly closer than the best of the remaining entities (so equal
distance hands the win to the later candidate). -/
theorem nearest_entity_type_returns_last_argmin (sx sy : Rat) (l : List QEnt) :
    nearestEntityType sx sy l none = lastArgmin sx sy (l.filter fun e => e.isT) := by
  rw [nearestEntityType_filter]
  exact nearestEntityType_none_eq_lastArgmin sx sy _
    (fun e he => (List.mem_filter.mp he).2)

/-- Claim C9: a `LivingEntity` constructed with health argument `h` starts
at `max(h, maxHealth)` — never below the type's `maxHealth` however small
`h` is, and above it exactly when `h` exceeds it (the constructor takes
the maximum, not the minimum). -/
theorem living_init_health_is_max (mh h : Int) :
    (LivingState.init mh h).health = max h mh ∧
    mh ≤ (LivingState.init mh h).health ∧
    (mh < h → (LivingState.init mh h).health = h) := by
  refine ⟨rfl, le_max_right h mh, fun hlt => ?_⟩
  simp [LivingState.init, max_eq_left (le_of_lt hlt)]

/-- Witness for the C9 theorem at `maxHealth = 10` with a small argument
`h = 3` (health starts at 10) and a large argument `h = 15` (health starts
at 15). -/
theorem living_init_health_is_max_witness :
    (LivingState.init 10 3).health = max 3 10 ∧
    (10 : Int) ≤ (LivingState.init 10 3).health ∧
    (LivingState.init 10 15).health = 15 := by
  obtain ⟨h1, h2, _⟩ := living_init_health_is_max 10 3
  obtain ⟨_, _, h3⟩ := living_init_health_is_max 10 15
  exact ⟨h1, h2, h3 (by decide)⟩

/-- Claim C10: assigning `v` to the public `health` property is a complete
no-op when `v > 0` (health — indeed the whole state — is unchanged); when
`v <= 0` it sets health to 0 and runs the `onDeath` hook immediately,
without calling `dispose()` (the removal flag and the `_on_dispose`
count are untouched in the resulting state). -/
theorem health_setter_noop_positive_death_nonpositive (s : LivingState) (v : Int) :
    (0 < v → LivingState.healthSet v s = s) ∧
    (v ≤ 0 → LivingState.healthSet v s =
      { s with health := 0, onDeathCount := s.onDeathCount + 1 }) := by
  constructor
  · intro hv
    simp [LivingState.healthSet, not_le.mpr hv]
  · intro hv
    simp [LivingState.healthSet, hv]

/-- Witness for the C10 theorem at `exampleLiving` with `v = 5` (no-op) and
`v = -1` (health zeroed, `onDeath` run once, removal flag untouched). -/
theorem health_setter_noop_positive_death_nonpositive_witness :
    LivingState.healthSet 5 exampleLiving = exampleLiving ∧
    LivingState.healthSet (-1) exampleLiving =
      { exampleLiving with health := 0, onDeathCount := exampleLiving.onDeathCount + 1 } := by
  obtain ⟨h1, _⟩ := health_setter_noop_positive_death_nonpositive exampleLiving 5
  obtain ⟨_, h2⟩ := health_setter_noop_positive_death_nonpositive exampleLiving (-1)
  exact ⟨h1 (by decide), h2 (by decide)⟩

/-- Claim C5: an ability attempt by a tower that finds no targets of its
target type within its area of effect does not restart the cooldown timer,
does not run `_on_ability`, and leaves every registry entity (enemy
healths included) unchanged — only `on_cooldown` is set to `False`, so a
tower already polling is left in exactly the same state; `Tower.tick`
re-attempts the ability on every tick while `on_cooldown` is `False`; and
when targets are found, or the target type is `NONE`, `_on_ability` runs
and the cooldown timer is restarted.  The theorem holds for every
subclass ability implementation `f`. -/
theorem tower_ability_busy_poll
    (f : List TargetRef → AbilityWorld → AbilityWorld)
    (tt : EntityTargetType) (aoe : Rat) (w : AbilityWorld) :
    (acquireTargets tt aoe w = [] → tt ≠ EntityTargetType.NONE →
      performAbility f tt aoe w = { w with onCooldown := false }) ∧
    (w.onCooldown = false → towerTick f tt aoe w = performAbility f tt aoe w) ∧
    (w.onCooldown = true → towerTick f tt aoe w = w) ∧
    (acquireTargets tt aoe w ≠ [] ∨ tt = EntityTargetType.NONE →
      performAbility f tt aoe w =
        (let w1 := f (acquireTargets tt aoe w) { w with abilityRuns := w.abilityRuns + 1 }
         { w1 with onCooldown := true, timerStarts := w1.timerStarts + 1 })) := by
  refine ⟨?_, ?_, ?_, ?_⟩
  · intro hempty hne
    simp [performAbility, hempty, hne]
  · intro hcd
    simp [towerTick, hcd]
  · intro hcd
    simp [towerTick, hcd]
  · intro hsome
    rcases hsome with hne | hnone
    · have : acquireTargets tt aoe w ≠ [] := hne
      simp [performAbility, List.length_pos.mpr this]
    · simp [performAbility, hnone]

/-- Witness for the C5 theorem: a polling tower (`on_cooldown = False`,
ENEMY targeting, area of effect 100) with one enemy at distance 500 — the
failed attempt only re-asserts `on_cooldown = False`, the next tick
re-attempts, and with target type `NONE` the ability executes and the
timer restarts. -/
theorem tower_ability_busy_poll_witness :
    performAbility (fun _ w => w) EntityTargetType.ENEMY 100 examplePollingWorld =
      { examplePollingWorld with onCooldown := false } ∧
    towerTick (fun _ w => w) EntityTargetType.ENEMY 100 examplePollingWorld =
      performAbility (fun _ w => w) EntityTargetType.ENEMY 100 examplePollingWorld ∧
    performAbility (fun _ w => w) EntityTargetType.NONE 100 examplePollingWorld =
      { examplePollingWorld with
          abilityRuns := examplePollingWorld.abilityRuns + 1
          onCooldown := true
          timerStarts := examplePollingWorld.timerStarts + 1 } := by
  have hempty : acquireTargets EntityTargetType.ENEMY 100 examplePollingWorld = [] := by
    norm_num [acquireTargets, withinRadius, distSq, examplePollingWorld, List.enum]
  obtain ⟨h1, h2, _, _⟩ :=
    tower_ability_busy_poll (fun _ w => w) EntityTargetType.ENEMY 100 examplePollingWorld
  obtain ⟨_, _, _, h4⟩ :=
    tower_ability_busy_poll (fun _ w => w) EntityTargetType.NONE 100 examplePollingWorld
  exact ⟨h1 hempty (by decide), h2 rfl, h4 (Or.inr rfl)⟩

end TowerDefense
